import Mathlib

/-!
Verification development for the week07 e-commerce backend
(Customer Service, Order Service, Product Service).

Shallow embedding of:
- the Pydantic schema layer of the order service
  (src/backend/order_service/app/schemas.py),
- the SQLAlchemy models of the order service and customer service
  (src/backend/order_service/app/models.py,
   src/backend/customer_service/app/models.py),
- the persistence configuration of the customer and product services
  (src/backend/customer_service/app/db.py,
   src/backend/product_service/app/db.py),
- the Order Service HTTP API, whose module app/main.py is not part of the
  source excerpt: its behavior is modelled from the specification and the
  integration test suite (src/backend/order_service/tests/test_main.py).

Money amounts are modelled as exact rationals (the database columns are
fixed-point Numeric(10,2)); identifiers as integers; timestamps as
natural numbers.
-/

namespace Week07

/-! ## Order service schema layer (src/backend/order_service/app/schemas.py) -/

/-- Data carried by the OrderItemBase / OrderItemCreate Pydantic schema:
product_id, quantity, price_at_purchase. -/
structure OrderItemCreateData where
  product_id : Int
  quantity : Int
  price_at_purchase : ℚ
deriving DecidableEq, Repr

/-- Validation of OrderItemBase = OrderItemCreate: product_id ge=1,
quantity ge=1, price_at_purchase gt=0. -/
def validOrderItemCreate (it : OrderItemCreateData) : Bool :=
  (1 ≤ it.product_id) && (1 ≤ it.quantity) && (0 < it.price_at_purchase)

/-- Data carried by the OrderCreate Pydantic schema: user_id,
shipping_address, status (optional, default "pending"), items. -/
structure OrderCreateData where
  user_id : Int
  shipping_address : Option String
  status : Option String
  items : List OrderItemCreateData
deriving DecidableEq, Repr

/-- Validation of OrderCreate (inheriting OrderBase): user_id ge=1,
shipping_address max_length=1000, status max_length=50, items min_length=1,
and each item valid per OrderItemCreate. -/
def validOrderCreate (o : OrderCreateData) : Bool :=
  (1 ≤ o.user_id)
    && (match o.shipping_address with
        | none => true
        | some a => a.length ≤ 1000)
    && (match o.status with
        | none => true
        | some s => s.length ≤ 50)
    && (1 ≤ o.items.length)
    && o.items.all validOrderItemCreate

/-- The closed status set appearing in the OrderStatusUpdate schema's
regular-expression pattern. -/
def statusEnum : List String :=
  ["pending", "processing", "shipped", "cancelled", "confirmed",
   "completed", "failed"]

/-- Validation of the OrderStatusUpdate schema: a required status string
with max_length=50 and pattern matching exactly one of the enumerated
words. -/
def validOrderStatusUpdate (s : String) : Bool :=
  (s.length ≤ 50) && statusEnum.contains s

/-- A field of a Pydantic schema: its name and whether a value is
required (as opposed to Optional with a default). -/
structure SchemaField where
  name : String
  required : Bool
deriving DecidableEq, Repr

/-- Fields declared by OrderBase: user_id required, shipping_address and
status optional. -/
def orderBaseFields : List SchemaField :=
  [⟨"user_id", true⟩, ⟨"shipping_address", false⟩, ⟨"status", false⟩]

/-- Fields of OrderCreate: OrderBase's fields plus the required items
list. -/
def orderCreateFields : List SchemaField :=
  orderBaseFields ++ [⟨"items", true⟩]

/-- Fields of OrderUpdate: it inherits OrderBase but redeclares user_id,
shipping_address and status as Optional; no items field is declared. -/
def orderUpdateFields : List SchemaField :=
  [⟨"user_id", false⟩, ⟨"shipping_address", false⟩, ⟨"status", false⟩]

/-! ## Order service entity model (src/backend/order_service/app/models.py) -/

/-- A row of the orders_week03_part_03 table. -/
structure OrderRow where
  order_id : Int
  user_id : Int
  order_date : Nat
  status : String
  total_amount : ℚ
  shipping_address : Option String
  created_at : Nat
  updated_at : Option Nat
deriving DecidableEq, Repr

/-- A row of the order_items_week03_part_03 table. -/
structure OrderItemRow where
  order_item_id : Int
  order_id : Int
  product_id : Int
  quantity : Int
  price_at_purchase : ℚ
  item_total : ℚ
  created_at : Nat
  updated_at : Option Nat
deriving DecidableEq, Repr

/-- The order service's database: the two tables and the auto-increment
counters of their surrogate primary keys. -/
structure Storage where
  orders : List OrderRow
  order_items : List OrderItemRow
  next_order_id : Int
  next_order_item_id : Int
deriving DecidableEq, Repr

/-- The empty database, as recreated by the test-session fixture. -/
def Storage.empty : Storage := ⟨[], [], 1, 1⟩

/-- Data carried by the OrderItemResponse Pydantic schema. -/
structure OrderItemResponseData where
  product_id : Int
  quantity : Int
  price_at_purchase : ℚ
  order_item_id : Int
  order_id : Int
  item_total : ℚ
  created_at : Nat
  updated_at : Option Nat
deriving DecidableEq, Repr

/-- Constructing an OrderItemResponse from an OrderItem row
(from_attributes mode). Pydantic validates on construction, and
OrderItemResponse inherits OrderItemBase's field constraints
(product_id ge=1, quantity ge=1, price_at_purchase gt=0), so a row
violating a bound fails validation and cannot be serialized. -/
def mkOrderItemResponse (row : OrderItemRow) : Option OrderItemResponseData :=
  if (1 ≤ row.product_id) && (1 ≤ row.quantity) && (0 < row.price_at_purchase) then
    some ⟨row.product_id, row.quantity, row.price_at_purchase,
          row.order_item_id, row.order_id, row.item_total,
          row.created_at, row.updated_at⟩
  else
    none

/-- Data carried by the OrderResponse Pydantic schema (status is required
in the response; items is the nested list of item responses). -/
structure OrderResponseData where
  user_id : Int
  shipping_address : Option String
  status : String
  order_id : Int
  order_date : Nat
  total_amount : ℚ
  created_at : Nat
  updated_at : Option Nat
  items : List OrderItemResponseData
deriving DecidableEq, Repr

/-! ## Order service HTTP API (app/main.py, modelled from the spec) -/

/-- Outcome of one outbound stock-deduction call to the Product Service:
success, an application-level client-error rejection carrying the
upstream's own detail text (insufficient stock or unknown product), or a
network-level failure (connection error or timeout). -/
inductive DeductResult where
  | ok : DeductResult
  | clientError (detail : String) : DeductResult
  | networkError : DeductResult
deriving DecidableEq, Repr

/-- One outbound PATCH /products/\x7bproduct_id\x7d/deduct-stock call as
issued by the saga: the addressed product, the quantity_to_deduct body
field, and the request timeout in seconds. -/
structure DeductCall where
  product_id : Int
  quantity_to_deduct : Int
  timeout_seconds : Nat
deriving DecidableEq, Repr

/-- The deduction call the saga issues for one submitted item: that
item's product id and quantity with a 5-second timeout. -/
def callOf (it : OrderItemCreateData) : DeductCall :=
  ⟨it.product_id, it.quantity, 5⟩

/-- Outcome of the sequential reservation loop: every item reserved, or a
stop at the first client-error rejection (recording the offending
product id and the upstream detail), or a stop at the first
network-level failure. -/
inductive ReserveOutcome where
  | allReserved : ReserveOutcome
  | clientFailed (product_id : Int) (detail : String) : ReserveOutcome
  | unreachable : ReserveOutcome
deriving DecidableEq, Repr

/-- Modelled from the spec: the sequential reservation loop of the
order-creation saga in app/main.py (absent from the source excerpt).
Items are processed in submission order; for each one a deduction call
with its product id and quantity and a 5-second timeout is issued; the
oracle ps gives the Product Service's response to the i-th call; the
loop stops at the first failure. Returns the list of calls issued and
the outcome. -/
def reserveFrom (ps : Nat → DeductResult) :
    List OrderItemCreateData → Nat → List DeductCall × ReserveOutcome
  | [], _ => ([], .allReserved)
  | it :: rest, i =>
    match ps i with
    | .ok =>
      let r := reserveFrom ps rest (i + 1)
      (callOf it :: r.1, r.2)
    | .clientError d => ([callOf it], .clientFailed it.product_id d)
    | .networkError => ([callOf it], .unreachable)

/-- An HTTP error response: status code and detail string. -/
structure ErrorResponse where
  status_code : Nat
  detail : String
deriving DecidableEq, Repr

/-- The fresh OrderItem rows persisted for a successfully reserved order:
one per submitted item, in order, with item_total = quantity ×
price_at_purchase and consecutive surrogate ids. -/
def mkItemRows (oid : Int) (now : Nat) (firstId : Int) :
    List OrderItemCreateData → List OrderItemRow
  | [] => []
  | it :: rest =>
    ⟨firstId, oid, it.product_id, it.quantity, it.price_at_purchase,
     (it.quantity : ℚ) * it.price_at_purchase, now, none⟩
      :: mkItemRows oid now (firstId + 1) rest

/-- The item-total of one submitted item: quantity × price_at_purchase,
in exact rational (fixed-point decimal) arithmetic. -/
def itemTotal (it : OrderItemCreateData) : ℚ :=
  (it.quantity : ℚ) * it.price_at_purchase

/-- The total_amount of a submitted item list: the sum of the item
totals. -/
def totalAmount (items : List OrderItemCreateData) : ℚ :=
  (items.map itemTotal).sum

/-- Modelled from the spec: the POST /orders/ route of app/main.py
(absent from the source excerpt), per §4.7 of the specification and the
integration tests. Validates the body against OrderCreate; runs the
sequential reservation saga; on any client-error rejection answers 400
with detail "Failed to deduct stock for product \x7bproduct_id\x7d:
\x7bupstream detail\x7d" and persists nothing; on network failure
answers 503 with detail "Product Service is currently unavailable" and
persists nothing (compensation of already-reserved items is best-effort
logging only: the tests show no further outbound calls); only when every
item is reserved persists one Order row and one OrderItem row per item
in a single transaction and answers 201 with the serialized order.
Returns the HTTP result, the resulting storage, and the list of
outbound deduction calls issued. -/
def createOrder (ps : Nat → DeductResult) (now : Nat) (st : Storage)
    (req : OrderCreateData) :
    (Except ErrorResponse OrderResponseData) × Storage × List DeductCall :=
  if validOrderCreate req then
    match reserveFrom ps req.items 0 with
    | (trace, .allReserved) =>
      let oid := st.next_order_id
      let rows := mkItemRows oid now st.next_order_item_id req.items
      let orow : OrderRow :=
        ⟨oid, req.user_id, now, req.status.getD "pending",
         totalAmount req.items, req.shipping_address, now, none⟩
      let st' : Storage :=
        ⟨st.orders ++ [orow], st.order_items ++ rows,
         oid + 1, st.next_order_item_id + req.items.length⟩
      let itemsResp := rows.filterMap mkOrderItemResponse
      (.ok ⟨orow.user_id, orow.shipping_address, orow.status, oid, now,
            orow.total_amount, now, none, itemsResp⟩,
       st', trace)
    | (trace, .clientFailed pid d) =>
      (.error ⟨400, "Failed to deduct stock for product " ++ toString pid
                      ++ ": " ++ d⟩,
       st, trace)
    | (trace, .unreachable) =>
      (.error ⟨503, "Product Service is currently unavailable"⟩, st, trace)
  else
    (.error ⟨422, "validation error"⟩, st, [])

/-- Looking an order up by id in the orders table. -/
def findOrder (st : Storage) (oid : Int) : Option OrderRow :=
  st.orders.find? (fun o => o.order_id == oid)

/-- Modelled from the spec: the GET /orders/\x7border_id\x7d route of
app/main.py (absent from the source excerpt): the order row on success,
404 with detail "Order not found" when no such id exists. -/
def getOrder (st : Storage) (oid : Int) : Except ErrorResponse OrderRow :=
  match findOrder st oid with
  | some o => .ok o
  | none => .error ⟨404, "Order not found"⟩

/-- Modelled from the spec: the GET /orders/\x7border_id\x7d/items route
of app/main.py (absent from the source excerpt): the item rows whose
order_id matches. -/
def getOrderItems (st : Storage) (oid : Int) : List OrderItemRow :=
  st.order_items.filter (fun it => it.order_id == oid)

/-- Modelled from the spec: the DELETE /orders/\x7border_id\x7d route of
app/main.py (absent from the source excerpt): deletes the order and, via
the cascade="all, delete-orphan" relationship of the entity model, all
of its items, answering 204 with no body; answers 404 with detail
"Order not found" and changes nothing when the id does not exist.
Returns (status code, optional detail) and the resulting storage. -/
def deleteOrder (st : Storage) (oid : Int) :
    (Nat × Option String) × Storage :=
  match findOrder st oid with
  | some _ =>
    ((204, none),
     ⟨st.orders.filter (fun o => o.order_id != oid),
      st.order_items.filter (fun it => it.order_id != oid),
      st.next_order_id, st.next_order_item_id⟩)
  | none => ((404, some "Order not found"), st)

/-! ## Customer service (src/backend/customer_service/app/models.py,
schemas.py) -/

/-- A row of the customers_week03_part_03 table. -/
structure CustomerRow where
  customer_id : Int
  email : String
  password_hash : String
  first_name : String
  last_name : String
  phone_number : Option String
  shipping_address : Option String
  created_at : Nat
  updated_at : Option Nat
deriving DecidableEq, Repr

/-- The data stored for a customer (hash already computed downstream of
the CustomerCreate schema). -/
structure CustomerData where
  email : String
  password_hash : String
  first_name : String
  last_name : String
  phone_number : Option String
  shipping_address : Option String
deriving DecidableEq, Repr

/-- Inserting a customer row. Per the entity model, created_at has
default=func.now() and updated_at has default=func.now() as well (plus
onupdate=func.now()), so both timestamp columns are populated at insert
time. -/
def insertCustomer (now : Nat) (cid : Int) (d : CustomerData) : CustomerRow :=
  ⟨cid, d.email, d.password_hash, d.first_name, d.last_name,
   d.phone_number, d.shipping_address, now, some now⟩

/-- The optional fields of the CustomerUpdate schema (partial update:
absent fields are left unchanged). -/
structure CustomerUpdateData where
  email : Option String
  first_name : Option String
  last_name : Option String
  phone_number : Option (Option String)
  shipping_address : Option (Option String)
deriving DecidableEq, Repr

/-- Updating a customer row: present fields replace the stored values and
the updated_at column is refreshed by onupdate=func.now(). -/
def updateCustomerRow (now : Nat) (row : CustomerRow)
    (u : CustomerUpdateData) : CustomerRow :=
  ⟨row.customer_id,
   u.email.getD row.email,
   row.password_hash,
   u.first_name.getD row.first_name,
   u.last_name.getD row.last_name,
   u.phone_number.getD row.phone_number,
   u.shipping_address.getD row.shipping_address,
   row.created_at,
   some now⟩

/-! ## Persistence configuration (src/backend/customer_service/app/db.py,
src/backend/product_service/app/db.py) -/

/-- A SQLAlchemy engine as configured by create_engine: the database URL
and whether pool_pre_ping is enabled (its default is off). -/
structure EngineConfig where
  url : String
  pool_pre_ping : Bool
deriving DecidableEq, Repr

/-- The customer service's database URL assembled from the environment
defaults postgres/postgres/customers/localhost/5432. -/
def customer_DATABASE_URL : String :=
  "postgresql://" ++ "postgres" ++ ":" ++ "postgres" ++ "@"
    ++ "localhost" ++ ":" ++ "5432" ++ "/" ++ "customers"

/-- The customer service's engine: create_engine(DATABASE_URL,
pool_pre_ping=True). -/
def customer_engine : EngineConfig := ⟨customer_DATABASE_URL, true⟩

/-- The product service's database URL assembled from the environment
defaults postgres/postgres/products/localhost/5432. -/
def product_DATABASE_URL : String :=
  "postgresql://" ++ "postgres" ++ ":" ++ "postgres" ++ "@"
    ++ "localhost" ++ ":" ++ "5432" ++ "/" ++ "products"

/-- The product service's engine: create_engine(DATABASE_URL) with no
pool_pre_ping argument, so the flag keeps its default of off. -/
def product_engine : EngineConfig := ⟨product_DATABASE_URL, false⟩

/-- Modelled from the spec: the order service's app/db.py is absent from
the source excerpt; §4.4 describes the same pattern with database name
"orders" and states that no pre-ping flag is set for this
configuration. -/
def order_engine : EngineConfig :=
  ⟨"postgresql://" ++ "postgres" ++ ":" ++ "postgres" ++ "@"
     ++ "localhost" ++ ":" ++ "5432" ++ "/" ++ "orders", false⟩

/-! ## Helper lemmas about the reservation loop -/

/-- If every call among the first items.length answers ok, the loop
issues one call per item in order and reports allReserved. -/
lemma reserveFrom_all_ok (ps : Nat → DeductResult)
    (items : List OrderItemCreateData) (i : Nat)
    (h : ∀ j, j < items.length → ps (i + j) = .ok) :
    reserveFrom ps items i = (items.map callOf, .allReserved) := by
  induction items generalizing i with
  | nil => rfl
  | cons it rest ih =>
    have h0 : ps i = .ok := by
      have := h 0 (by simp)
      simpa using this
    have hrest : ∀ j, j < rest.length → ps (i + 1 + j) = .ok := by
      intro j hj
      have e : i + 1 + j = i + (j + 1) := by omega
      rw [e]
      exact h (j + 1) (by simpa using Nat.succ_lt_succ hj)
    simp [reserveFrom, h0, ih (i + 1) hrest]

/-- If the loop reports allReserved, every call among the first
items.length answered ok. -/
lemma reserveFrom_allReserved_imp (ps : Nat → DeductResult)
    (items : List OrderItemCreateData) (i : Nat)
    (h : (reserveFrom ps items i).2 = .allReserved) :
    ∀ j, j < items.length → ps (i + j) = .ok := by
  induction items generalizing i with
  | nil => intro j hj; simp at hj
  | cons it rest ih =>
    intro j hj
    cases hps : ps i with
    | ok =>
      cases j with
      | zero => simpa using hps
      | succ j' =>
        have h' : (reserveFrom ps rest (i + 1)).2 = .allReserved := by
          simpa [reserveFrom, hps] using h
        have e : i + (j' + 1) = i + 1 + j' := by omega
        rw [e]
        exact ih (i + 1) h' j' (by simpa using Nat.lt_of_succ_lt_succ hj)
    | clientError d => simp [reserveFrom, hps] at h
    | networkError => simp [reserveFrom, hps] at h

/-- If the first k calls answer ok and the call for item k fails, the
loop issues exactly the calls for items 0..k and stops with the outcome
determined by the failing answer and item k. -/
lemma reserveFrom_first_fail (ps : Nat → DeductResult)
    (items : List OrderItemCreateData) (i k : Nat)
    (hk : k < items.length)
    (hpre : ∀ j, j < k → ps (i + j) = .ok)
    (hfail : ps (i + k) ≠ .ok) :
    reserveFrom ps items i =
      ((items.take (k + 1)).map callOf,
       match ps (i + k) with
       | .ok => .allReserved
       | .clientError d => .clientFailed (items.get ⟨k, hk⟩).product_id d
       | .networkError => .unreachable) := by
  induction items generalizing i k with
  | nil => simp at hk
  | cons it rest ih =>
    cases k with
    | zero =>
      have hi : ps i ≠ .ok := by simpa using hfail
      cases hps : ps i with
      | ok => exact absurd hps hi
      | clientError d => simp [reserveFrom, hps]
      | networkError => simp [reserveFrom, hps]
    | succ k' =>
      have h0 : ps i = .ok := by
        have := hpre 0 (by omega)
        simpa using this
      have hk' : k' < rest.length := by simpa using Nat.lt_of_succ_lt_succ hk
      have hpre' : ∀ j, j < k' → ps (i + 1 + j) = .ok := by
        intro j hj
        have e : i + 1 + j = i + (j + 1) := by omega
        rw [e]
        exact hpre (j + 1) (by omega)
      have hfail' : ps (i + 1 + k') ≠ .ok := by
        have e : i + 1 + k' = i + (k' + 1) := by omega
        rw [e]
        exact hfail
      have e2 : i + (k' + 1) = i + 1 + k' := by omega
      rw [e2]
      simp only [reserveFrom, h0, ih (i + 1) k' hk' hpre' hfail']
      cases hps2 : ps (i + 1 + k') <;> simp [hps2]

/-- The persisted item rows carry item_total = quantity ×
price_at_purchase for the corresponding submitted items. -/
lemma mkItemRows_item_totals (oid : Int) (now : Nat) (fid : Int)
    (items : List OrderItemCreateData) :
    (mkItemRows oid now fid items).map (fun r => r.item_total)
      = items.map itemTotal := by
  induction items generalizing fid with
  | nil => rfl
  | cons it rest ih => simp [mkItemRows, itemTotal, ih]

/-- Every persisted row of a schema-valid item passes the
OrderItemResponse validation, and the serialized items carry the same
item totals. -/
lemma mkItemRows_responses (oid : Int) (now : Nat) (fid : Int)
    (items : List OrderItemCreateData)
    (h : items.all validOrderItemCreate = true) :
    ((mkItemRows oid now fid items).filterMap mkOrderItemResponse).map
        (fun r => r.item_total)
      = items.map itemTotal := by
  induction items generalizing fid with
  | nil => rfl
  | cons it rest ih =>
    have hit : validOrderItemCreate it = true := by
      simp [List.all_cons] at h
      exact h.1
    have hrest : rest.all validOrderItemCreate = true := by
      simp [List.all_cons] at h
      simpa [List.all_eq_true] using h.2
    have hcond : ((1 ≤ it.product_id) && (1 ≤ it.quantity)
        && (0 < it.price_at_purchase)) = true := by
      simpa [validOrderItemCreate] using hit
    simp [mkItemRows, mkOrderItemResponse, hcond, itemTotal, ih (fid + 1) hrest]

/-! ## Claim theorems -/

/-- C1. Order creation is atomic with respect to reservation failure: if
the Product Service's answer to the call for any submitted item is not
ok (client-error rejection or network unreachability), the order
service's storage after the request is exactly the storage before it —
no Order row and no OrderItem row is persisted for the attempted order,
even when earlier items in the same request were successfully
reserved. -/
theorem order_creation_atomic_on_failure (ps : Nat → DeductResult)
    (now : Nat) (st : Storage) (req : OrderCreateData) (k : Nat)
    (hk : k < req.items.length) (hfail : ps k ≠ .ok) :
    (createOrder ps now st req).2.1 = st := by
  by_cases hv : validOrderCreate req = true
  · have hnotall : (reserveFrom ps req.items 0).2 ≠ .allReserved := by
      intro hall
      exact hfail (by simpa using reserveFrom_allReserved_imp ps req.items 0 hall k hk)
    rcases hres : reserveFrom ps req.items 0 with ⟨trace, outcome⟩
    cases outcome with
    | allReserved => exact absurd (by rw [hres]) hnotall
    | clientFailed pid d => simp [createOrder, hv, hres]
    | unreachable => simp [createOrder, hv, hres]
  · simp [createOrder, hv]

/-- Witness for C1 at a concrete input: a single-item order whose
deduction call fails with a network error leaves the empty storage
unchanged. -/
theorem order_creation_atomic_on_failure_witness :
    0 < (OrderCreateData.mk 7 none none [⟨101, 1, 10⟩]).items.length ∧
    (fun _ : Nat => DeductResult.networkError) 0 ≠ DeductResult.ok ∧
    (createOrder (fun _ => DeductResult.networkError) 5 Storage.empty
        ⟨7, none, none, [⟨101, 1, 10⟩]⟩).2.1 = Storage.empty :=
  ⟨by decide, by decide,
   order_creation_atomic_on_failure (fun _ => DeductResult.networkError) 5
     Storage.empty ⟨7, none, none, [⟨101, 1, 10⟩]⟩ 0 (by decide) (by decide)⟩

/-- C4. Reservations are issued strictly sequentially in submission
order, exactly one deduction call per item carrying that item's product
id and quantity with a 5-second timeout: when every call succeeds the
trace is one call per item in order, and when the call for item k is
the first to fail the trace is exactly the calls for items 0..k — no
call is ever issued for items after the failing one. -/
theorem sequential_reservation_calls (ps : Nat → DeductResult)
    (now : Nat) (st : Storage) (req : OrderCreateData)
    (hv : validOrderCreate req = true) :
    ((∀ i, i < req.items.length → ps i = .ok) →
        (createOrder ps now st req).2.2 = req.items.map callOf) ∧
    (∀ k, (hk : k < req.items.length) → (∀ j, j < k → ps j = .ok) →
        ps k ≠ .ok →
        (createOrder ps now st req).2.2
          = (req.items.take (k + 1)).map callOf) := by
  constructor
  · intro hall
    have := reserveFrom_all_ok ps req.items 0 (by simpa using hall)
    simp [createOrder, hv, this]
  · intro k hk hpre hfail
    have hrf := reserveFrom_first_fail ps req.items 0 k hk
      (by simpa using hpre) (by simpa using hfail)
    rcases hcase : ps k with _ | d | _
    · exact absurd hcase hfail
    · simp only [Nat.zero_add, hcase] at hrf
      simp [createOrder, hv, hrf]
    · simp only [Nat.zero_add, hcase] at hrf
      simp [createOrder, hv, hrf]

/-- Witness for C4 at a concrete input: a two-item order where the
second call fails issues exactly the two calls for items 0 and 1, each
with its item's product id and quantity and a 5-second timeout. -/
theorem sequential_reservation_calls_witness :
    validOrderCreate ⟨5, none, none, [⟨101, 1, 10⟩, ⟨202, 10, 20⟩]⟩ = true ∧
    (createOrder
        (fun i => if i == 0 then DeductResult.ok
                  else DeductResult.clientError "Insufficient stock for product 202")
        9 Storage.empty ⟨5, none, none, [⟨101, 1, 10⟩, ⟨202, 10, 20⟩]⟩).2.2
      = [⟨101, 1, 5⟩, ⟨202, 10, 5⟩] := by
  refine ⟨by decide, ?_⟩
  have h := (sequential_reservation_calls
      (fun i => if i == 0 then DeductResult.ok
                else DeductResult.clientError "Insufficient stock for product 202")
      9 Storage.empty ⟨5, none, none, [⟨101, 1, 10⟩, ⟨202, 10, 20⟩]⟩
      (by decide)).2 1 (by decide)
      (by intro j hj; interval_cases j; rfl) (by decide)
  simpa [callOf] using h

/-- C2. For an order whose every reservation succeeds, the returned
response and the persisted rows carry total_amount = Σ quantityᵢ ×
price_at_purchaseᵢ and per-item item_total = quantityᵢ ×
price_at_purchaseᵢ, in exact rational (fixed-point decimal) arithmetic
across the multiply-and-sum. -/
theorem order_totals_exact (ps : Nat → DeductResult) (now : Nat)
    (st : Storage) (req : OrderCreateData)
    (hv : validOrderCreate req = true)
    (hall : ∀ i, i < req.items.length → ps i = .ok) :
    ∃ resp,
      (createOrder ps now st req).1 = .ok resp ∧
      resp.total_amount
        = (req.items.map
            (fun it => (it.quantity : ℚ) * it.price_at_purchase)).sum ∧
      resp.items.map (fun r => r.item_total)
        = req.items.map (fun it => (it.quantity : ℚ) * it.price_at_purchase) ∧
      ∃ orow irows,
        (createOrder ps now st req).2.1.orders = st.orders ++ [orow] ∧
        (createOrder ps now st req).2.1.order_items
          = st.order_items ++ irows ∧
        orow.total_amount
          = (req.items.map
              (fun it => (it.quantity : ℚ) * it.price_at_purchase)).sum ∧
        irows.map (fun r => r.item_total)
          = req.items.map
              (fun it => (it.quantity : ℚ) * it.price_at_purchase) := by
  have hres := reserveFrom_all_ok ps req.items 0 (by simpa using hall)
  have hitems : req.items.all validOrderItemCreate = true := by
    simp only [validOrderCreate, Bool.and_eq_true] at hv
    exact hv.2
  refine ⟨⟨req.user_id, req.shipping_address, req.status.getD "pending",
           st.next_order_id, now, totalAmount req.items, now, none,
           (mkItemRows st.next_order_id now st.next_order_item_id
             req.items).filterMap mkOrderItemResponse⟩,
         ?_, ?_, ?_,
         ⟨st.next_order_id, req.user_id, now, req.status.getD "pending",
          totalAmount req.items, req.shipping_address, now, none⟩,
         mkItemRows st.next_order_id now st.next_order_item_id req.items,
         ?_, ?_, ?_, ?_⟩
  · simp [createOrder, hv, hres]
  · rfl
  · simpa [itemTotal] using
      mkItemRows_responses st.next_order_id now st.next_order_item_id
        req.items hitems
  · simp [createOrder, hv, hres]
  · simp [createOrder, hv, hres]
  · rfl
  · simpa [itemTotal] using
      mkItemRows_item_totals st.next_order_id now st.next_order_item_id
        req.items

/-- Witness for C2 at a concrete input: the two-item order of the
success test, items (2, 10.50) and (1, 25.00), with every deduction
succeeding. -/
theorem order_totals_exact_witness :
    validOrderCreate
        ⟨1, some "123 Test St, Test City", none,
         [⟨101, 2, mkRat 21 2⟩, ⟨102, 1, 25⟩]⟩ = true ∧
    (∀ i, i < ([⟨101, 2, mkRat 21 2⟩, ⟨102, 1, 25⟩]
        : List OrderItemCreateData).length →
      (fun _ : Nat => DeductResult.ok) i = DeductResult.ok) ∧
    ∃ resp,
      (createOrder (fun _ => DeductResult.ok) 3 Storage.empty
          ⟨1, some "123 Test St, Test City", none,
           [⟨101, 2, mkRat 21 2⟩, ⟨102, 1, 25⟩]⟩).1 = .ok resp ∧
      resp.total_amount
        = (([⟨101, 2, mkRat 21 2⟩, ⟨102, 1, 25⟩]
            : List OrderItemCreateData).map
              (fun it => (it.quantity : ℚ) * it.price_at_purchase)).sum ∧
      resp.items.map (fun r => r.item_total)
        = ([⟨101, 2, mkRat 21 2⟩, ⟨102, 1, 25⟩]
            : List OrderItemCreateData).map
              (fun it => (it.quantity : ℚ) * it.price_at_purchase) ∧
      ∃ orow irows,
        (createOrder (fun _ => DeductResult.ok) 3 Storage.empty
            ⟨1, some "123 Test St, Test City", none,
             [⟨101, 2, mkRat 21 2⟩, ⟨102, 1, 25⟩]⟩).2.1.orders
          = Storage.empty.orders ++ [orow] ∧
        (createOrder (fun _ => DeductResult.ok) 3 Storage.empty
            ⟨1, some "123 Test St, Test City", none,
             [⟨101, 2, mkRat 21 2⟩, ⟨102, 1, 25⟩]⟩).2.1.order_items
          = Storage.empty.order_items ++ irows ∧
        orow.total_amount
          = (([⟨101, 2, mkRat 21 2⟩, ⟨102, 1, 25⟩]
              : List OrderItemCreateData).map
                (fun it => (it.quantity : ℚ) * it.price_at_purchase)).sum ∧
        irows.map (fun r => r.item_total)
          = ([⟨101, 2, mkRat 21 2⟩, ⟨102, 1, 25⟩]
              : List OrderItemCreateData).map
                (fun it => (it.quantity : ℚ) * it.price_at_purchase) :=
  ⟨by decide, fun i _ => rfl,
   order_totals_exact (fun _ => DeductResult.ok) 3 Storage.empty
     ⟨1, some "123 Test St, Test City", none,
      [⟨101, 2, mkRat 21 2⟩, ⟨102, 1, 25⟩]⟩
     (by decide) (fun i _ => rfl)⟩

/-- C3. Exact upstream-failure mapping: when the call for item k is the
first to fail, a client-error rejection with upstream detail d yields
HTTP 400 with detail "Failed to deduct stock for product
\x7bproduct_id\x7d: " followed by d, and a network failure yields HTTP
503 with detail "Product Service is currently unavailable". -/
theorem upstream_failure_response_mapping (ps : Nat → DeductResult)
    (now : Nat) (st : Storage) (req : OrderCreateData) (k : Nat)
    (hk : k < req.items.length)
    (hv : validOrderCreate req = true)
    (hpre : ∀ j, j < k → ps j = .ok) :
    (∀ d, ps k = .clientError d →
        (createOrder ps now st req).1
          = .error ⟨400, "Failed to deduct stock for product "
              ++ toString (req.items.get ⟨k, hk⟩).product_id ++ ": " ++ d⟩) ∧
    (ps k = .networkError →
        (createOrder ps now st req).1
          = .error ⟨503, "Product Service is currently unavailable"⟩) := by
  constructor
  · intro d hcase
    have hrf := reserveFrom_first_fail ps req.items 0 k hk
      (by simpa using hpre) (by simp [hcase])
    simp only [Nat.zero_add, hcase] at hrf
    simp [createOrder, hv, hrf]
  · intro hcase
    have hrf := reserveFrom_first_fail ps req.items 0 k hk
      (by simpa using hpre) (by simp [hcase])
    simp only [Nat.zero_add, hcase] at hrf
    simp [createOrder, hv, hrf]

/-- Witness for C3 at a concrete input: a one-item order rejected for
insufficient stock answers 400 with the composed detail string. -/
theorem upstream_failure_response_mapping_witness :
    0 < (OrderCreateData.mk 2 (some "456 Commerce Rd") none
          [⟨201, 5, 50⟩]).items.length ∧
    validOrderCreate
        ⟨2, some "456 Commerce Rd", none, [⟨201, 5, 50⟩]⟩ = true ∧
    (createOrder
        (fun _ => DeductResult.clientError
          "Insufficient stock for product 'TestProduct'. Only 0 available.")
        4 Storage.empty
        ⟨2, some "456 Commerce Rd", none, [⟨201, 5, 50⟩]⟩).1
      = .error ⟨400, "Failed to deduct stock for product "
          ++ toString ((OrderCreateData.mk 2 (some "456 Commerce Rd") none
              [⟨201, 5, 50⟩]).items.get ⟨0, by decide⟩).product_id
          ++ ": "
          ++ "Insufficient stock for product 'TestProduct'. Only 0 available."⟩ :=
  ⟨by decide, by decide,
   (upstream_failure_response_mapping
      (fun _ => DeductResult.clientError
        "Insufficient stock for product 'TestProduct'. Only 0 available.")
      4 Storage.empty
      ⟨2, some "456 Commerce Rd", none, [⟨201, 5, 50⟩]⟩ 0 (by decide)
      (by decide) (fun j hj => absurd hj (by omega))).1
     "Insufficient stock for product 'TestProduct'. Only 0 available." rfl⟩

/-- C6. Deleting an existing order answers 204 with no detail and
removes the order together with all of its item rows, so that a
subsequent fetch answers 404 with detail "Order not found" and the item
query returns zero rows; deleting a nonexistent order answers 404 with
detail exactly "Order not found" and leaves the storage unchanged. -/
theorem delete_order_cascade (st : Storage) (oid : Int) :
    ((∃ o, findOrder st oid = some o) →
        (deleteOrder st oid).1 = (204, none) ∧
        getOrder (deleteOrder st oid).2 oid
          = .error ⟨404, "Order not found"⟩ ∧
        getOrderItems (deleteOrder st oid).2 oid = []) ∧
    (findOrder st oid = none →
        (deleteOrder st oid).1 = (404, some "Order not found") ∧
        (deleteOrder st oid).2 = st) := by
  constructor
  · rintro ⟨o, ho⟩
    have ho' : st.orders.find? (fun x => x.order_id == oid) = some o := ho
    refine ⟨by simp [deleteOrder, ho], ?_, ?_⟩
    · have hnone :
          (st.orders.filter (fun x => x.order_id != oid)).find?
              (fun x => x.order_id == oid) = none := by
        rw [List.find?_eq_none]
        intro x hx
        have := (List.mem_filter.mp hx).2
        simpa using this
      simp [getOrder, deleteOrder, findOrder, ho', hnone]
    · have hnil :
          (st.order_items.filter (fun x => x.order_id != oid)).filter
              (fun x => x.order_id == oid) = [] := by
        rw [List.filter_eq_nil_iff]
        intro x hx
        have := (List.mem_filter.mp hx).2
        simpa using this
      simp [getOrderItems, deleteOrder, findOrder, ho', hnil]
  · intro ho
    exact ⟨by simp [deleteOrder, ho], by simp [deleteOrder, ho]⟩

/-- Witness for C6 at a concrete input: a storage holding one order with
one item; deleting the order yields 204, a 404 on re-fetch, and zero
item rows; deleting the absent id 999999 yields 404 and no change. -/
theorem delete_order_cascade_witness :
    (∃ o, findOrder
        ⟨[⟨1, 7, 0, "pending", 10, none, 0, none⟩],
         [⟨1, 1, 701, 1, 10, 10, 0, none⟩], 2, 2⟩ 1 = some o) ∧
    (deleteOrder
        ⟨[⟨1, 7, 0, "pending", 10, none, 0, none⟩],
         [⟨1, 1, 701, 1, 10, 10, 0, none⟩], 2, 2⟩ 1).1 = (204, none) ∧
    getOrder (deleteOrder
        ⟨[⟨1, 7, 0, "pending", 10, none, 0, none⟩],
         [⟨1, 1, 701, 1, 10, 10, 0, none⟩], 2, 2⟩ 1).2 1
      = .error ⟨404, "Order not found"⟩ ∧
    getOrderItems (deleteOrder
        ⟨[⟨1, 7, 0, "pending", 10, none, 0, none⟩],
         [⟨1, 1, 701, 1, 10, 10, 0, none⟩], 2, 2⟩ 1).2 1 = [] ∧
    (deleteOrder Storage.empty 999999).1 = (404, some "Order not found") ∧
    (deleteOrder Storage.empty 999999).2 = Storage.empty := by
  refine ⟨⟨⟨1, 7, 0, "pending", 10, none, 0, none⟩, by decide⟩, ?_⟩
  have h1 := (delete_order_cascade
      ⟨[⟨1, 7, 0, "pending", 10, none, 0, none⟩],
       [⟨1, 1, 701, 1, 10, 10, 0, none⟩], 2, 2⟩ 1).1
    ⟨⟨1, 7, 0, "pending", 10, none, 0, none⟩, by decide⟩
  have h2 := (delete_order_cascade Storage.empty 999999).2 (by decide)
  exact ⟨h1.1, h1.2.1, h1.2.2, h2.1, h2.2⟩

/-- C10. Values serialized through OrderItemResponse satisfy the
inherited creation bounds: whenever the response model is successfully
constructed from a stored row, the serialized product_id is ≥ 1, the
quantity is ≥ 1 and the price_at_purchase is > 0 — a stored item
violating any bound cannot be serialized at all. -/
theorem order_item_response_bounds (row : OrderItemRow)
    (r : OrderItemResponseData) (h : mkOrderItemResponse row = some r) :
    1 ≤ r.product_id ∧ 1 ≤ r.quantity ∧ 0 < r.price_at_purchase := by
  unfold mkOrderItemResponse at h
  split at h
  next hcond =>
    injection h with h'
    subst h'
    simp only [Bool.and_eq_true, decide_eq_true_eq] at hcond
    exact ⟨hcond.1.1, hcond.1.2, hcond.2⟩
  next => exact absurd h (by simp)

/-- Witness for C10 at a concrete input: a row with product_id 801,
quantity 2 and price 5 serializes, and the serialized values satisfy
the bounds. -/
theorem order_item_response_bounds_witness :
    mkOrderItemResponse ⟨1, 1, 801, 2, 5, 10, 0, none⟩
      = some ⟨801, 2, 5, 1, 1, 10, 0, none⟩ ∧
    (1 ≤ (801 : Int) ∧ 1 ≤ (2 : Int) ∧ (0 : ℚ) < 5) :=
  ⟨by decide,
   order_item_response_bounds ⟨1, 1, 801, 2, 5, 10, 0, none⟩
     ⟨801, 2, 5, 1, 1, 10, 0, none⟩ (by decide)⟩

/-- C5, counterexample. The order-creation schema accepts the status
string "archived", which is not in the enumerated set: creation-accepted
orders need not have their status in the seven-value enumeration. -/
theorem status_enum_not_enforced_on_creation :
    validOrderCreate ⟨1, none, some "archived", [⟨1, 1, 1⟩]⟩ = true ∧
    statusEnum.contains "archived" = false := by decide

/-- C5, amended. The dedicated status-update schema accepts a status
string if and only if it is in the enumerated set, while the
order-creation schema only enforces a 50-character bound on the status
(defaulting to "pending" when absent) and does not restrict it to the
set. -/
theorem status_update_enum_iff (s : String) (req : OrderCreateData) :
    (validOrderStatusUpdate s = true ↔ statusEnum.contains s = true) ∧
    (validOrderCreate req = true →
        (req.status.getD "pending").length ≤ 50) := by
  constructor
  · constructor
    · intro h
      simp only [validOrderStatusUpdate, Bool.and_eq_true] at h
      exact h.2
    · intro h
      have hmem : s ∈ statusEnum := by simpa using h
      have hlen : s.length ≤ 50 := by
        simp only [statusEnum, List.mem_cons, List.mem_singleton,
          List.not_mem_nil, or_false] at hmem
        rcases hmem with rfl | rfl | rfl | rfl | rfl | rfl | rfl <;> decide
      simp only [validOrderStatusUpdate, Bool.and_eq_true]
      exact ⟨by simpa using hlen, h⟩
  · intro hv
    simp only [validOrderCreate, Bool.and_eq_true] at hv
    have hst := hv.1.1.2
    cases hstatus : req.status with
    | none => decide
    | some s' =>
      rw [hstatus] at hst
      simpa using hst

/-- Witness for the amended C5 at concrete inputs: "shipped" satisfies
the status-update equivalence, and a creation request with status
"pending" passes validation with a status of at most 50 characters. -/
theorem status_update_enum_iff_witness :
    (validOrderStatusUpdate "shipped" = true
      ↔ statusEnum.contains "shipped" = true) ∧
    validOrderCreate ⟨3, none, some "pending", [⟨1, 1, 1⟩]⟩ = true ∧
    ((OrderCreateData.mk 3 none (some "pending")
        [⟨1, 1, 1⟩]).status.getD "pending").length ≤ 50 :=
  ⟨(status_update_enum_iff "shipped"
      ⟨3, none, some "pending", [⟨1, 1, 1⟩]⟩).1,
   by decide,
   (status_update_enum_iff "shipped"
      ⟨3, none, some "pending", [⟨1, 1, 1⟩]⟩).2 (by decide)⟩

/-- C7, counterexample. The items list is accepted by the order-creation
schema but is not present on the order-update schema, so the update
schema does not carry every creation field. -/
theorem order_update_missing_items_field :
    (orderCreateFields.map SchemaField.name).contains "items" = true ∧
    (orderUpdateFields.map SchemaField.name).contains "items" = false := by
  decide

/-- C7, amended. Every field of the order-update schema is optional, and
its field names are exactly the creation schema's field names with the
items list removed (user_id, shipping_address, status). -/
theorem order_update_optional_scalar_fields :
    orderUpdateFields.all (fun f => !f.required) = true ∧
    orderUpdateFields.map SchemaField.name
      = (orderCreateFields.map SchemaField.name).filter
          (fun n => n != "items") := by decide

/-- C8, counterexample. A freshly inserted customer row has updated_at
populated (the column carries default=func.now()), so updated_at is not
absent until the first update. -/
theorem customer_updated_at_set_on_insert :
    (insertCustomer 100 1
        ⟨"ann@example.com", "hash", "Ann", "Lee", none, none⟩).updated_at
      ≠ none := by decide

/-- C8, amended. The customer entity populates updated_at already at
insert time with the creation timestamp (column default now()), and
refreshes it to the update timestamp on every update; the response
schema merely allows it to be null. -/
theorem customer_updated_at_timestamps (now : Nat) (cid : Int)
    (d : CustomerData) (now' : Nat) (row : CustomerRow)
    (u : CustomerUpdateData) :
    (insertCustomer now cid d).updated_at = some now ∧
    (insertCustomer now cid d).created_at = now ∧
    (updateCustomerRow now' row u).updated_at = some now' :=
  ⟨rfl, rfl, rfl⟩

/-- C9, counterexample. It is not the case that both the customer and
the product persistence configurations enable pre-ping: the product
service's create_engine call passes no pool_pre_ping flag, so the
product engine keeps the default of off. -/
theorem product_engine_no_pre_ping :
    ¬ (customer_engine.pool_pre_ping = true
        ∧ product_engine.pool_pre_ping = true) := by decide

/-- C9, amended. Only the customer persistence configuration enables
pre-ping connection validation; the product configuration does not, and
the order configuration (modelled from the spec) does not either. -/
theorem engine_pre_ping_flags :
    customer_engine.pool_pre_ping = true ∧
    product_engine.pool_pre_ping = false ∧
    order_engine.pool_pre_ping = false := by decide

end Week07
